import Mathlib

/-!
Shallow embedding of `src/nface/nface.go` (package nface of TJSoler/graw),
a thin client for the Reddit API: OAuth2 password-grant authentication,
request construction for GET/POST, transport execution, JSON decoding.

External collaborators (the Go standard library and the oauth2 package) are
modelled at the boundary:
  * `url.Values.Encode` becomes an executable stand-in `encodeValues`
    (the repository treats the encoded text opaquely);
  * `http.NewRequest` becomes `httpNewRequest` (URL-parse failures of the
    standard library are not modelled, so construction always succeeds);
  * the transport `http.Client.Do` becomes a function argument of type
    `Transport`, stored in the `Client` as `Option Transport` where `none`
    models a nil pointer;
  * `json.Unmarshal` becomes the `unmarshal` argument of `Do`;
  * the oauth2 token exchange becomes the `exchange` argument of `NewClient`.
A nil-pointer dereference in the Go code is modelled by `Outcome.crash`.
-/

namespace Nface

/-- reqAction: Go declares `type reqAction int` with GET and POST produced by
an iota enumeration, so any integer value is representable. -/
abbrev reqAction := Nat

/-- GET describes an http GET request (iota value 0). -/
def GET : reqAction := 0

/-- POST describes an http POST request (iota value 1). -/
def POST : reqAction := 1

/-- authURL is the url for authorization requests. -/
def authURL : String := "https://www.reddit.com/api/v1/access_token"

/-- baseURL is the default base url for all api calls. -/
def baseURL : String := "https://oauth.reddit.com/api"

/-- contentType is the header flag for POST requests. -/
def contentType : String := "application/x-www-form-urlencoded"

/-- Form parameters: the Go code passes `*url.Values`; an `Option UrlValues`
models the pointer, with `none` for nil. -/
abbrev UrlValues := List (String × String)

/-- Stand-in for the external library call `url.Values.Encode`; the
repository never inspects the encoded text, so a simple key=value join
keeps the embedding executable. -/
def encodeValues (vals : UrlValues) : String :=
  String.intercalate "&" (vals.map (fun p => p.1 ++ "=" ++ p.2))

/-- The parts of Go's `http.Request` this repository touches: method, url,
body (`none` models a nil body, as for GET) and headers. -/
structure HttpRequest where
  method : String
  url : String
  body : Option String
  header : List (String × String)
deriving DecidableEq, Repr

/-- Header.Set of the Go standard library: replaces any entry for the key. -/
def headerSet (h : List (String × String)) (k v : String) :
    List (String × String) :=
  h.filter (fun p => p.1 ≠ k) ++ [(k, v)]

/-- Header.Add of the Go standard library: appends an entry for the key. -/
def headerAdd (h : List (String × String)) (k v : String) :
    List (String × String) :=
  h ++ [(k, v)]

/-- http.NewRequest of the Go standard library, at the two call sites of the
repository; URL-parse failures of the standard library are not modelled,
so construction always succeeds. -/
def httpNewRequest (method url : String) (body : Option String) :
    Except String HttpRequest :=
  .ok { method := method, url := url, body := body, header := [] }

/-- The body stream of an `http.Response`: either it reads to completion
yielding a string, or `ioutil.ReadAll` on it fails with an error. -/
inductive BodyContent where
  | content (s : String)
  | readFail (e : String)
deriving DecidableEq, Repr

/-- The parts of Go's `http.Response` this repository touches; `body = none`
models a nil Body. -/
structure HttpResponse where
  statusCode : Nat
  body : Option BodyContent
deriving DecidableEq, Repr

/-- Result of one call of the transport `http.Client.Do`: a transport error,
or a response. -/
inductive TransportResult where
  | fail (e : String)
  | resp (r : HttpResponse)

/-- The authenticated transport (Go's `*http.Client`), as a function. -/
abbrev Transport := HttpRequest → TransportResult

/-- Client manages a connection with the reddit api. `client = none` models
the nil `*http.Client` pointer of a Client that never authenticated;
`userAgent` holds the string `c.userAgent.GetUserAgent()` returns (the
protobuf getter is nil-safe and returns `""` on a nil pointer). -/
structure Client where
  baseURL : String
  client : Option Transport
  userAgent : String

/-- Request describes how to build an http.Request for the reddit api. -/
structure Request where
  Action : reqAction
  URL : String
  Values : Option UrlValues

/-- Outcome of running a piece of the Go code: a value, an error return, or
a crash (nil-pointer dereference panic). -/
inductive Outcome (α : Type) where
  | ok (a : α)
  | err (e : String)
  | crash
deriving DecidableEq, Repr

/-- Record of what happened to a response body: whether it was read to
completion, and whether it was closed, before the function returned. -/
structure BodyEffects where
  readToEnd : Bool
  closed : Bool
deriving DecidableEq, Repr

/-- Effects when no body was touched at all. -/
def noBodyEffects : BodyEffects := { readToEnd := false, closed := false }

/-- postRequest returns a template http.Request with the given url and POST
form values set; nil values are rejected with "no values for POST body". -/
def postRequest (url : String) (vals : Option UrlValues) :
    Except String HttpRequest :=
  match vals with
  | none => .error "no values for POST body"
  | some v =>
    match httpNewRequest "POST" url (some (encodeValues v)) with
    | .error e => .error e
    | .ok req =>
      .ok { req with header := headerSet req.header "content-type" contentType }

/-- getRequest returns a template http.Request with the given url and GET
form values encoded into the query string when present. -/
def getRequest (url : String) (vals : Option UrlValues) :
    Except String HttpRequest :=
  let reqURL := match vals with
    | none => url
    | some v => url ++ "?" ++ encodeValues v
  httpNewRequest "GET" reqURL none

/-- Client.buildRequest: builds an http.Request from a Request struct. In the
Go source, an Action that is neither GET nor POST leaves both `req` and
`err` nil, so the subsequent `req.Header.Add` dereferences a nil pointer:
that path is `Outcome.crash`. -/
def buildRequest (c : Client) (r : Request) : Outcome HttpRequest :=
  let callURL := c.baseURL ++ r.URL
  let built : Option (Except String HttpRequest) :=
    if r.Action = GET then some (getRequest callURL r.Values)
    else if r.Action = POST then some (postRequest callURL r.Values)
    else none
  match built with
  | some (.error e) => .err e
  | some (.ok req) =>
    .ok { req with header := headerAdd req.header "user-agent" c.userAgent }
  | none => .crash

/-- Client.doRequest: sends a request and returns the body of the response.
Alongside the result it records whether the response body was read to
completion and closed: in the Go source the `defer resp.Body.Close()`
comes only after the early returns for a nil body and for a non-200
status, so on the bad-status path a present body is neither read nor
closed. A nil `client` field crashes (nil-pointer dereference). -/
def doRequest (c : Client) (r : HttpRequest) : Outcome String × BodyEffects :=
  match c.client with
  | none => (.crash, noBodyEffects)
  | some transport =>
    match transport r with
    | .fail e => (.err e, noBodyEffects)
    | .resp resp =>
      match resp.body with
      | none => (.err "empty response body", noBodyEffects)
      | some bc =>
        if resp.statusCode ≠ 200 then
          (.err ("bad status: " ++ toString resp.statusCode ++ "\n"),
            noBodyEffects)
        else
          match bc with
          | .readFail e =>
            (.err ("reading response body failed: " ++ e),
              { readToEnd := false, closed := true })
          | .content s => (.ok s, { readToEnd := true, closed := true })

/-- Client.Do: executes a request using the Client's auth and user agent and
Unmarshal()s the result. `json.Unmarshal` is external and passed in as
`unmarshal`, returning `some` error message on decode failure. -/
def Do (c : Client) (unmarshal : String → Option String) (r : Request) :
    Outcome Unit × BodyEffects :=
  match buildRequest c r with
  | .err e => (.err e, noBodyEffects)
  | .crash => (.crash, noBodyEffects)
  | .ok req =>
    match doRequest c req with
    | (.ok s, eff) =>
      match unmarshal s with
      | some e => (.err e, eff)
      | none => (.ok (), eff)
    | (.err e, eff) => (.err e, eff)
    | (.crash, eff) => (.crash, eff)

/-- Client.oauth: the external OAuth2 password-grant exchange
(conf.PasswordCredentialsToken followed by conf.Client) is passed in as
`exchange`. An error leaves the receiver untouched and is returned;
success installs the authenticated transport and returns nil. -/
def oauth (c : Client) (exchange : Except String Transport) :
    Client × Option String :=
  match exchange with
  | .error e => (c, some e)
  | .ok t => ({ c with client := some t }, none)

/-- NewClient: allocates the Client struct (so the returned pointer is never
nil — `some` models that pointer) and then runs oauth on it, returning the
pointer together with oauth's error. -/
def NewClient (userAgent : String) (exchange : Except String Transport) :
    Option Client × Option String :=
  let c : Client := { baseURL := baseURL, client := none, userAgent := userAgent }
  let r := oauth c exchange
  (some r.1, r.2)

/-- TestClient: returns a Client using the provided transport and base URL,
bypassing authentication; its userAgent pointer stays nil, whose nil-safe
getter yields the empty string. -/
def TestClient (t : Option Transport) (base : String) : Client :=
  { baseURL := base, client := t, userAgent := "" }

/-- State-passing form of Do: the Go method has a pointer receiver but its
body never assigns to any field of the receiver, so the receiver comes back
unchanged. -/
def DoMut (c : Client) (unmarshal : String → Option String) (r : Request) :
    Client × (Outcome Unit × BodyEffects) :=
  (c, Do c unmarshal r)

/-- C1: for every Request with Action POST and nil Values, Do returns the
error "no values for POST body", no body is ever touched, and the transport
is never invoked: the same outcome arises when the Client's transport is the
nil pointer, which would crash if it were ever dereferenced. -/
theorem C1_post_nil_values (c : Client) (u : String → Option String)
    (r : Request) (hA : r.Action = POST) (hV : r.Values = none) :
    Do c u r = (.err "no values for POST body", noBodyEffects) ∧
    Do { c with client := none } u r =
      (.err "no values for POST body", noBodyEffects) := by
  constructor <;>
    simp [Do, buildRequest, hA, hV, postRequest, GET, POST]

/-- C1 witness: the theorem at a concrete client and request. -/
theorem C1_post_nil_values_witness :
    Do (TestClient none "b") (fun _ => none)
        { Action := POST, URL := "/x", Values := none } =
      (.err "no values for POST body", noBodyEffects) ∧
    Do { TestClient none "b" with client := none } (fun _ => none)
        { Action := POST, URL := "/x", Values := none } =
      (.err "no values for POST body", noBodyEffects) :=
  C1_post_nil_values (TestClient none "b") (fun _ => none)
    { Action := POST, URL := "/x", Values := none } rfl rfl

/-- C2: for every Request whose Action is neither GET nor POST, buildRequest
produces neither a request nor an error — the Go source leaves both nil and
then dereferences the nil request — so buildRequest and Do crash instead of
returning a build error. -/
theorem C2_unknown_action_crash (c : Client) (u : String → Option String)
    (r : Request) (h1 : r.Action ≠ GET) (h2 : r.Action ≠ POST) :
    buildRequest c r = .crash ∧ Do c u r = (.crash, noBodyEffects) := by
  have hb : buildRequest c r = .crash := by
    simp [buildRequest, h1, h2]
  exact ⟨hb, by simp [Do, hb]⟩

/-- C2 witness: the theorem at the concrete action value 2. -/
theorem C2_unknown_action_crash_witness :
    buildRequest (TestClient none "b") { Action := 2, URL := "/x", Values := none } = .crash ∧
    Do (TestClient none "b") (fun _ => none)
        { Action := 2, URL := "/x", Values := none } =
      (.crash, noBodyEffects) :=
  C2_unknown_action_crash (TestClient none "b") (fun _ => none)
    { Action := 2, URL := "/x", Values := none } (by decide) (by decide)

/-- C3 counterexample: a response with status 404 and a nil body makes Do
fail with the empty-body error, which does not report the status code —
the nil-body check in doRequest precedes the status check, so the claim's
"regardless of body content (including a missing body)" fails. -/
theorem C3_counterexample :
    Do (TestClient (some (fun _ => .resp { statusCode := 404, body := none })) "b")
        (fun _ => none) { Action := GET, URL := "/x", Values := none } =
      (.err "empty response body", noBodyEffects) ∧
    ("empty response body" : String) ≠ "bad status: 404\n" := by
  exact ⟨rfl, by decide⟩

/-- C3 amended: for every response whose status is not 200 and whose body is
not nil, Do fails with the bad-status error reporting the status code,
regardless of the body's content; a nil body instead takes the empty-body
path first. -/
theorem C3_bad_status (c : Client) (u : String → Option String) (r : Request)
    (t : Transport) (req : HttpRequest) (code : Nat) (bc : BodyContent)
    (hc : c.client = some t) (hb : buildRequest c r = .ok req)
    (ht : t req = .resp { statusCode := code, body := some bc })
    (hcode : code ≠ 200) :
    Do c u r =
      (.err ("bad status: " ++ toString code ++ "\n"), noBodyEffects) := by
  simp [Do, hb, doRequest, hc, ht, hcode]

/-- C3 witness: the amended theorem at a concrete 404 response carrying a
body. -/
theorem C3_bad_status_witness :
    Do (TestClient
          (some (fun _ => .resp { statusCode := 404, body := some (.content "x") })) "b")
        (fun _ => none) { Action := GET, URL := "/x", Values := none } =
      (.err ("bad status: " ++ toString 404 ++ "\n"), noBodyEffects) :=
  C3_bad_status
    (TestClient
      (some (fun _ => .resp { statusCode := 404, body := some (.content "x") })) "b")
    (fun _ => none) { Action := GET, URL := "/x", Values := none }
    (fun _ => .resp { statusCode := 404, body := some (.content "x") })
    { method := "GET", url := "b/x", body := none, header := [("user-agent", "")] }
    404 (.content "x") rfl rfl rfl (by decide)

/-- C4: for every Request that builds and every transport answering it with
status 200 and a nil body, Do fails with the empty-body error; the decoder
`u` is arbitrary, so the outcome is never a decode error. -/
theorem C4_empty_body (c : Client) (u : String → Option String) (r : Request)
    (t : Transport) (req : HttpRequest)
    (hc : c.client = some t) (hb : buildRequest c r = .ok req)
    (ht : t req = .resp { statusCode := 200, body := none }) :
    Do c u r = (.err "empty response body", noBodyEffects) := by
  simp [Do, hb, doRequest, hc, ht]

/-- C4 witness: the theorem at a concrete 200 response with nil body and a
decoder that would reject any input it saw. -/
theorem C4_empty_body_witness :
    Do (TestClient (some (fun _ => .resp { statusCode := 200, body := none })) "b")
        (fun _ => some "decode error") { Action := GET, URL := "/x", Values := none } =
      (.err "empty response body", noBodyEffects) :=
  C4_empty_body
    (TestClient (some (fun _ => .resp { statusCode := 200, body := none })) "b")
    (fun _ => some "decode error") { Action := GET, URL := "/x", Values := none }
    (fun _ => .resp { statusCode := 200, body := none })
    { method := "GET", url := "b/x", body := none, header := [("user-agent", "")] }
    rfl rfl rfl

/-- C5: evaluating Do at a response with status 500 and a present body shows
the bug the claim describes is real in the code: Do returns the bad-status
error with the body neither read to completion nor closed, because the
`defer resp.Body.Close()` in doRequest comes after the status-check return. -/
theorem C5_leak_on_bad_status :
    Do (TestClient
          (some (fun _ => .resp { statusCode := 500, body := some (.content "x") })) "b")
        (fun _ => none) { Action := GET, URL := "/x", Values := none } =
      (.err "bad status: 500\n", { readToEnd := false, closed := false }) := rfl

/-- C6: for every Request with Action GET, the built request is a GET whose
URL is the Client's base URL concatenated with the request path, with the
encoded parameters appended as a query string exactly when Values is not
nil, whose body is empty, and which carries the user-agent header. -/
theorem C6_get_request (c : Client) (r : Request) (hA : r.Action = GET) :
    buildRequest c r = .ok {
      method := "GET",
      url := match r.Values with
        | none => c.baseURL ++ r.URL
        | some v => c.baseURL ++ r.URL ++ "?" ++ encodeValues v,
      body := none,
      header := [("user-agent", c.userAgent)] } := by
  cases hV : r.Values <;>
    simp [buildRequest, hA, getRequest, httpNewRequest, headerAdd, hV]

/-- C6 witness: the theorem at a concrete GET request with parameters. -/
theorem C6_get_request_witness :
    buildRequest (TestClient none "b")
        { Action := GET, URL := "/x", Values := some [("a", "1")] } = .ok {
      method := "GET",
      url := match some [("a", "1")] with
        | none => "b" ++ "/x"
        | some v => "b" ++ "/x" ++ "?" ++ encodeValues v,
      body := none,
      header := [("user-agent", "")] } :=
  C6_get_request (TestClient none "b")
    { Action := GET, URL := "/x", Values := some [("a", "1")] } rfl

/-- C7: for every Request with Action POST and non-nil Values, the built
request is a POST to base URL ++ path whose body is the encoded parameters
and whose headers are content-type: application/x-www-form-urlencoded and
user-agent: the caller-supplied identification string. -/
theorem C7_post_request (c : Client) (r : Request) (v : UrlValues)
    (hA : r.Action = POST) (hV : r.Values = some v) :
    buildRequest c r = .ok {
      method := "POST",
      url := c.baseURL ++ r.URL,
      body := some (encodeValues v),
      header := [("content-type", contentType), ("user-agent", c.userAgent)] } := by
  simp [buildRequest, hA, hV, postRequest, httpNewRequest, headerSet,
    headerAdd, GET, POST]

/-- C7 witness: the theorem at a concrete POST request with parameters. -/
theorem C7_post_request_witness :
    buildRequest { baseURL := "b", client := none, userAgent := "agent" }
        { Action := POST, URL := "/x", Values := some [("a", "1")] } = .ok {
      method := "POST",
      url := "b" ++ "/x",
      body := some (encodeValues [("a", "1")]),
      header := [("content-type", contentType), ("user-agent", "agent")] } :=
  C7_post_request { baseURL := "b", client := none, userAgent := "agent" }
    { Action := POST, URL := "/x", Values := some [("a", "1")] }
    [("a", "1")] rfl rfl

/-- C8: when the OAuth2 password-grant exchange fails, NewClient returns that
non-nil error, and the Client it hands back is not usable: its transport is
nil, so a Do on it (here with a GET request, which always builds) crashes
instead of completing a call. -/
theorem C8_auth_failure (ua e : String) (u : String → Option String)
    (r : Request) (hr : r.Action = GET) :
    NewClient ua (.error e) =
      (some { baseURL := baseURL, client := none, userAgent := ua }, some e) ∧
    Do { baseURL := baseURL, client := none, userAgent := ua } u r =
      (.crash, noBodyEffects) := by
  refine ⟨rfl, ?_⟩
  cases hV : r.Values <;>
    simp [Do, buildRequest, hr, getRequest, httpNewRequest, headerAdd,
      doRequest, hV]

/-- C8 witness: the theorem at a concrete failed exchange and GET request. -/
theorem C8_auth_failure_witness :
    NewClient "ua" (.error "bad credentials") =
      (some { baseURL := baseURL, client := none, userAgent := "ua" },
        some "bad credentials") ∧
    Do { baseURL := baseURL, client := none, userAgent := "ua" }
        (fun _ => none) { Action := GET, URL := "/x", Values := none } =
      (.crash, noBodyEffects) :=
  C8_auth_failure "ua" "bad credentials" (fun _ => none)
    { Action := GET, URL := "/x", Values := none } rfl

/-- C9: Do hands the Client back with every field (baseURL, transport,
userAgent) unchanged, and after a first call with any Request r1 the second
call's outcome and built request are exactly those computed from the Client
and r2 alone — nothing of r1 enters them. -/
theorem C9_no_shared_state (c : Client) (u : String → Option String)
    (r1 r2 : Request) :
    (DoMut c u r1).1 = c ∧
    (DoMut c u r1).1.baseURL = c.baseURL ∧
    (DoMut c u r1).1.client = c.client ∧
    (DoMut c u r1).1.userAgent = c.userAgent ∧
    Do (DoMut c u r1).1 u r2 = Do c u r2 ∧
    buildRequest (DoMut c u r1).1 r2 = buildRequest c r2 :=
  ⟨rfl, rfl, rfl, rfl, rfl, rfl⟩

/-- C10 counterexample: on a failed exchange NewClient does return a non-nil
Client with a nil transport, but not every subsequent Do on it dereferences
nil: a POST with nil Values returns the build error "no values for POST
body" before the transport is touched. -/
theorem C10_counterexample :
    (NewClient "ua" (.error "boom")).1 =
      some { baseURL := baseURL, client := none, userAgent := "ua" } ∧
    Do { baseURL := baseURL, client := none, userAgent := "ua" }
        (fun _ => none) { Action := POST, URL := "/x", Values := none } =
      (.err "no values for POST body", noBodyEffects) ∧
    ((.err "no values for POST body", noBodyEffects) :
        Outcome Unit × BodyEffects) ≠
      (.crash, noBodyEffects) :=
  ⟨rfl, rfl, by decide⟩

/-- C10 amended: even when the exchange fails, NewClient returns a non-nil
Client pointer alongside the error; that Client's transport field is nil, so
any subsequent Do whose request building succeeds dereferences nil instead
of returning an error. -/
theorem C10_nil_transport (ua e : String) (u : String → Option String)
    (r : Request) (req : HttpRequest)
    (hb : buildRequest { baseURL := baseURL, client := none, userAgent := ua } r
      = .ok req) :
    (NewClient ua (.error e)).1 =
      some { baseURL := baseURL, client := none, userAgent := ua } ∧
    ({ baseURL := baseURL, client := none, userAgent := ua } : Client).client
      = none ∧
    Do { baseURL := baseURL, client := none, userAgent := ua } u r =
      (.crash, noBodyEffects) := by
  refine ⟨rfl, rfl, ?_⟩
  simp [Do, hb, doRequest]

/-- C10 witness: the amended theorem at a concrete failed exchange and a GET
request, whose building succeeds. -/
theorem C10_nil_transport_witness :
    (NewClient "ua" (.error "boom")).1 =
      some { baseURL := baseURL, client := none, userAgent := "ua" } ∧
    ({ baseURL := baseURL, client := none, userAgent := "ua" } : Client).client
      = none ∧
    Do { baseURL := baseURL, client := none, userAgent := "ua" }
        (fun _ => none) { Action := GET, URL := "/x", Values := none } =
      (.crash, noBodyEffects) :=
  C10_nil_transport "ua" "boom" (fun _ => none)
    { Action := GET, URL := "/x", Values := none }
    { method := "GET", url := baseURL ++ "/x", body := none,
      header := [("user-agent", "ua")] } rfl

end Nface
